import Mathlib

/-!
Shallow embedding of the clipbox X11 clipboard core (src/linux/x11.rs).

The program is an event-driven X11 client.  Its interaction with the X
server is embedded as follows:

* the stream of events delivered by XNextEvent is an explicit input,
  a finite `List XEventT` (a finite prefix of the real, possibly infinite,
  event stream; exhausting the list while the code would keep blocking in
  XNextEvent is reported as `GetOutcome.blocked`);
* every request the client issues to the server (XChangeProperty,
  XConvertSelection, XSetSelectionOwner, XDeleteProperty,
  XGetWindowProperty, XSelectInput, XSendEvent, XFlush) is recorded, in
  issue order, in an output trace `List XRequest`;
* the replies of the synchronous XGetWindowProperty round-trips are an
  explicit input list `List GetPropReply` (status, ty, format, nitems,
  bytes_remaining and the buffer, `none` modelling a null pointer);
* C strings (atom names) are embedded as opaque numeric codes, distinct
  codes for the distinct source constants of `mod atom_names`; the
  display's name-to-atom table XInternAtom is an input `intern : Nat → Nat`
  and the atom-to-name table XGetAtomName an input `name_of : Nat → Nat`;
* machine integers (Atom, Window, Time, c_ulong counts) are embedded as
  `Nat`, and the c_int status of XGetWindowProperty as `Int`; none of the
  embedded code paths can overflow them.

Rust panics are a distinguished outcome (`GetOutcome.panicked`), fallible
paths return `Except`.
-/

/-- X11 constant PropModeReplace (prop_mode::REPLACE). -/
def propModeReplace : Nat := 0

/-- X11 constant PropModeAppend (prop_mode::APPEND). -/
def propModeAppend : Nat := 2

/-- X11 constant PropertyNewValue (property::NEW_VALUE), state of a PropertyNotify. -/
def propertyNewValue : Nat := 0

/-- X11 constant PropertyDelete (property::DELETE), state of a PropertyNotify. -/
def propertyDelete : Nat := 1

/-- X11 constant PropertyChangeMask (xevent_mask::PROPERTY_CHANGE). -/
def propertyChangeMask : Nat := 4194304

/-- X11 constant Success (errcode::SUCCESS). -/
def errcodeSuccess : Int := 0

/-- INCR_CHUNK_SIZE, the constant from X11Clipboard::set_selection. -/
def INCR_CHUNK_SIZE : Nat := 4096

namespace atom_names

/-- Name code of the C string constant atom_names::PRIMARY. -/
def PRIMARY : Nat := 0

/-- Name code of the C string constant atom_names::SECONDARY. -/
def SECONDARY : Nat := 1

/-- Name code of the C string constant atom_names::CLIPBOARD. -/
def CLIPBOARD : Nat := 2

/-- Name code of the C string constant atom_names::CLIPBOX (the SCRATCH property name). -/
def CLIPBOX : Nat := 3

/-- Name code of the C string constant atom_names::CLIPBOX_DUMMY (the DUMMY property name). -/
def CLIPBOX_DUMMY : Nat := 4

/-- Name code of the C string constant atom_names::STRING. -/
def STRING : Nat := 5

/-- Name code of the C string constant atom_names::TEXT. -/
def TEXT : Nat := 6

/-- Name code of the C string constant atom_names::UTF8_STRING. -/
def UTF8_STRING : Nat := 7

/-- Name code of the C string constant atom_names::TARGETS. -/
def TARGETS : Nat := 8

/-- Name code of the C string constant atom_names::INCR. -/
def INCR : Nat := 9

/-- Name code of the C string constant atom_names::ATOM. -/
def ATOM : Nat := 10

end atom_names

/-- The struct Atoms of x11.rs: the interned well-known atoms. -/
structure Atoms where
  primary : Nat
  secondary : Nat
  clipboard : Nat
  clipbox : Nat
  clipbox_dummy : Nat
  string : Nat
  text : Nat
  utf8_string : Nat
  targets : Nat
  incr : Nat
  atom : Nat
deriving DecidableEq, Repr

/-- The session struct X11Clipboard, keeping the fields the protocol logic
reads: the sink window, the interned atoms, and the negotiated maximum
request size.  (The LibX11 handle and the display pointer are the FFI
capability through which requests are issued; they are represented by the
request trace itself.) -/
structure X11Clipboard where
  window : Nat
  atoms : Atoms
  max_request_size : Nat
deriving DecidableEq, Repr

/-- The fields of XPropertyEvent read by the code (atom, state, time). -/
structure XPropertyEvent where
  atom : Nat
  state : Nat
  time : Nat
deriving DecidableEq, Repr

/-- The fields of XSelectionEvent read or written by the code
(requestor, selection, target, property, time); type_id, serial,
send_event and display are fixed by the construction site. -/
structure XSelectionEvent where
  requestor : Nat
  selection : Nat
  target : Nat
  property : Nat
  time : Nat
deriving DecidableEq, Repr

/-- The fields of XSelectionRequestEvent read by the code. -/
structure XSelectionRequestEvent where
  owner : Nat
  requestor : Nat
  selection : Nat
  target : Nat
  property : Nat
  time : Nat
deriving DecidableEq, Repr

/-- An XEvent as dispatched on type_id by the code: the four event kinds
the code inspects, every other type_id collapsed into otherEvent. -/
inductive XEventT where
  | propertyNotify (e : XPropertyEvent)
  | selectionNotify (e : XSelectionEvent)
  | selectionRequest (e : XSelectionRequestEvent)
  | selectionClear
  | otherEvent (typeId : Nat)
deriving DecidableEq, Repr

/-- A request issued by the client to the X server, as recorded in the
output trace.  changeProperty carries (window, property, ty, format, mode,
items); a zero-length write carries the empty list. -/
inductive XRequest where
  | changeProperty (window prop ty format mode : Nat) (data : List Nat)
  | deleteProperty (window prop : Nat)
  | getProperty (window prop : Nat)
  | convertSelection (selection target prop requestor time : Nat)
  | setSelectionOwner (selection owner time : Nat)
  | selectInput (window mask : Nat)
  | sendEvent (window : Nat) (e : XSelectionEvent)
  | flush
deriving DecidableEq, Repr

/-- The struct PropertyInvalidFormatError of x11.rs. -/
structure PropertyInvalidFormatError where
  wanted : Nat
  actual : Nat
deriving DecidableEq, Repr

/-- The enum GetSelectionError of x11.rs. -/
inductive GetSelectionError where
  | BadSelection
  | SelectionLost
  | GetPropertyFailed (status : Int)
  | NoDataInProperty
  | PropertyInvalidFormat (e : PropertyInvalidFormatError)
deriving DecidableEq, Repr

/-- The enum SetSelectionError of x11.rs. -/
inductive SetSelectionError where
  | NotOwner
deriving DecidableEq, Repr

/-- Decidable equality for Except, so that concrete runs of the embedded
code can be compared with decide. -/
instance exceptDecEq {ε α : Type} [DecidableEq ε] [DecidableEq α] :
    DecidableEq (Except ε α) := fun x y =>
  match x, y with
  | Except.ok a, Except.ok b =>
      if h : a = b then isTrue (by rw [h]) else
        isFalse (by intro hEq; cases hEq; exact h rfl)
  | Except.error a, Except.error b =>
      if h : a = b then isTrue (by rw [h]) else
        isFalse (by intro hEq; cases hEq; exact h rfl)
  | Except.ok _, Except.error _ => isFalse (by intro hEq; cases hEq)
  | Except.error _, Except.ok _ => isFalse (by intro hEq; cases hEq)

/-- Outcome of a paste-side operation: a Rust panic, the operation still
blocked in XNextEvent when the supplied event prefix ran out, or a
returned Result. -/
inductive GetOutcome (α : Type) where
  | panicked
  | blocked
  | done (r : Except GetSelectionError α)
deriving DecidableEq, Repr

/-- The struct XWindowProperty of x11.rs: a fetched window property.
`data` is the server-allocated buffer viewed as its sequence of items
(X guarantees the buffer holds nitems items of `format` bits each; the
Drop impl freeing the buffer has no observable effect on values). -/
structure XWindowProperty where
  ty : Nat
  format : Nat
  nitems : Nat
  bytes_remaining : Nat
  data : List Nat
deriving DecidableEq, Repr

/-- XWindowProperty::check_format_compatible::<T>, with `tFormat` standing
for 8 * size_of::<T>() (8 for u8, 32 for u32). -/
def check_format_compatible (tFormat : Nat) (p : XWindowProperty) :
    Except PropertyInvalidFormatError Unit :=
  if p.format = tFormat then Except.ok ()
  else Except.error ⟨tFormat, p.format⟩

/-- XWindowProperty::write_into_vec::<T>: after the format check, appends
the property's nitems items to the buffer (ptr::copy_nonoverlapping of
nitems items from the server buffer). -/
def write_into_vec (tFormat : Nat) (p : XWindowProperty) (buf : List Nat) :
    Except PropertyInvalidFormatError (List Nat) :=
  match check_format_compatible tFormat p with
  | Except.error e => Except.error e
  | Except.ok _ => Except.ok (buf ++ p.data.take p.nitems)

/-- XWindowProperty::into_vec::<T>. -/
def into_vec (tFormat : Nat) (p : XWindowProperty) :
    Except PropertyInvalidFormatError (List Nat) :=
  write_into_vec tFormat p []

/-- The outputs of one synchronous XGetWindowProperty round-trip:
return status, and the ty/format/nitems/bytes_remaining/data out
parameters.  `data = none` models a null buffer pointer. -/
structure GetPropReply where
  status : Int
  ty : Nat
  format : Nat
  nitems : Nat
  bytes_remaining : Nat
  data : Option (List Nat)
deriving DecidableEq, Repr

/-- X11Clipboard::get_clipbox_property: one XGetWindowProperty round-trip
on (sink window, CLIPBOX) with offset 0, length c_long::MAX, delete False,
req_type AnyPropertyType; non-Success status becomes GetPropertyFailed,
a null buffer becomes NoDataInProperty. -/
def get_clipbox_property (r : GetPropReply) :
    Except GetSelectionError XWindowProperty :=
  if r.status ≠ errcodeSuccess then
    Except.error (GetSelectionError.GetPropertyFailed r.status)
  else
    match r.data with
    | none => Except.error GetSelectionError.NoDataInProperty
    | some d => Except.ok ⟨r.ty, r.format, r.nitems, r.bytes_remaining, d⟩

/-- The drain loop inside X11Clipboard::get_compliant_timestamp: consume
events until a PropertyNotify whose atom is CLIPBOX_DUMMY arrives, and
return its time field together with the unconsumed rest of the stream.
All other events are discarded.  `none` = still blocked in XNextEvent. -/
def findDummyNotify (a : Atoms) : List XEventT → Option (Nat × List XEventT)
  | [] => none
  | XEventT.propertyNotify e :: rest =>
      if e.atom = a.clipbox_dummy then some (e.time, rest)
      else findDummyNotify a rest
  | _ :: rest => findDummyNotify a rest

/-- X11Clipboard::get_compliant_timestamp: issue a zero-length
XChangeProperty append on (sink window, CLIPBOX_DUMMY) with ty STRING and
format 8, then drain events until the matching PropertyNotify delivers
the server timestamp. -/
def get_compliant_timestamp (c : X11Clipboard) (events : List XEventT) :
    List XRequest × Option (Nat × List XEventT) :=
  ([XRequest.changeProperty c.window c.atoms.clipbox_dummy c.atoms.string 8
      propModeAppend []],
   findDummyNotify c.atoms events)

/-- The wait loop inside X11Clipboard::get_selection_event: consume events
until the first SelectionNotify; if its (requestor, selection, target)
matches the request it is returned, otherwise the function returns
BadSelection.  Other event kinds are discarded. -/
def awaitSelectionNotify (win selAtom tgtAtom : Nat) :
    List XEventT → Option (Except GetSelectionError (XSelectionEvent × List XEventT))
  | [] => none
  | XEventT.selectionNotify e :: rest =>
      if e.requestor = win ∧ e.selection = selAtom ∧ e.target = tgtAtom then
        some (Except.ok (e, rest))
      else
        some (Except.error GetSelectionError.BadSelection)
  | _ :: rest => awaitSelectionNotify win selAtom tgtAtom rest

/-- X11Clipboard::get_selection_event: obtain a compliant timestamp, issue
XConvertSelection(selection, target, CLIPBOX, sink window, timestamp),
wait for the matching SelectionNotify, and fail with SelectionLost when
its property field is 0. -/
def get_selection_event (c : X11Clipboard) (selAtom tgtAtom : Nat)
    (events : List XEventT) :
    List XRequest × Option (Except GetSelectionError (XSelectionEvent × List XEventT)) :=
  let ts := get_compliant_timestamp c events
  match ts.2 with
  | none => (ts.1, none)
  | some (t, evs) =>
    let tr := ts.1 ++ [XRequest.convertSelection selAtom tgtAtom c.atoms.clipbox c.window t]
    match awaitSelectionNotify c.window selAtom tgtAtom evs with
    | none => (tr, none)
    | some (Except.error e) => (tr, some (Except.error e))
    | some (Except.ok (e, evs2)) =>
      if e.property = 0 then (tr, some (Except.error GetSelectionError.SelectionLost))
      else (tr, some (Except.ok (e, evs2)))

/-- The wait loop inside the INCR branch of X11Clipboard::get_selection:
consume events until a PropertyNotify whose state is NEW_VALUE arrives
(the code checks only the state field, not the atom); every other event
is discarded.  `none` = still blocked in XNextEvent. -/
def awaitNewValue : List XEventT → Option (List XEventT)
  | [] => none
  | XEventT.propertyNotify e :: rest =>
      if e.state = propertyNewValue then some rest else awaitNewValue rest
  | _ :: rest => awaitNewValue rest

/-- The INCR receive loop of X11Clipboard::get_selection: each iteration
deletes CLIPBOX (XDeleteProperty), waits for a NEW_VALUE PropertyNotify,
re-reads CLIPBOX (one XGetWindowProperty reply consumed); nitems = 0
terminates the stream, otherwise the chunk is appended to the accumulator
through write_into_vec::<u8> and the loop repeats. -/
def incrLoop (c : X11Clipboard) (replies : List GetPropReply)
    (events : List XEventT) (acc : List Nat) :
    List XRequest × GetOutcome (List Nat) :=
  match awaitNewValue events with
  | none => ([XRequest.deleteProperty c.window c.atoms.clipbox], GetOutcome.blocked)
  | some evs =>
    match replies with
    | [] =>
        ([XRequest.deleteProperty c.window c.atoms.clipbox,
          XRequest.getProperty c.window c.atoms.clipbox], GetOutcome.blocked)
    | r :: rs =>
      match get_clipbox_property r with
      | Except.error e =>
          ([XRequest.deleteProperty c.window c.atoms.clipbox,
            XRequest.getProperty c.window c.atoms.clipbox],
           GetOutcome.done (Except.error e))
      | Except.ok p =>
        if p.nitems = 0 then
          ([XRequest.deleteProperty c.window c.atoms.clipbox,
            XRequest.getProperty c.window c.atoms.clipbox],
           GetOutcome.done (Except.ok acc))
        else
          match write_into_vec 8 p acc with
          | Except.error e =>
              ([XRequest.deleteProperty c.window c.atoms.clipbox,
                XRequest.getProperty c.window c.atoms.clipbox],
               GetOutcome.done (Except.error (GetSelectionError.PropertyInvalidFormat e)))
          | Except.ok acc2 =>
            let out := incrLoop c rs evs acc2
            (XRequest.deleteProperty c.window c.atoms.clipbox
               :: XRequest.getProperty c.window c.atoms.clipbox :: out.1,
             out.2)

/-- X11Clipboard::get_selection.  `selection` and `target` are the
caller-supplied atom-name codes; the code first panics when the target
name is the TARGETS constant, then interns both names, performs
get_selection_event, reads CLIPBOX, and either runs the INCR receive loop
(property type INCR) or converts the single read through
into_vec::<u8>. -/
def get_selection (c : X11Clipboard) (intern : Nat → Nat)
    (selection target : Nat) (events : List XEventT)
    (replies : List GetPropReply) :
    List XRequest × GetOutcome (List Nat) :=
  if target = atom_names.TARGETS then ([], GetOutcome.panicked)
  else
    let ev := get_selection_event c (intern selection) (intern target) events
    match ev.2 with
    | none => (ev.1, GetOutcome.blocked)
    | some (Except.error e) => (ev.1, GetOutcome.done (Except.error e))
    | some (Except.ok (_, evs)) =>
      match replies with
      | [] =>
          (ev.1 ++ [XRequest.getProperty c.window c.atoms.clipbox],
           GetOutcome.blocked)
      | r :: rs =>
        let tr := ev.1 ++ [XRequest.getProperty c.window c.atoms.clipbox]
        match get_clipbox_property r with
        | Except.error e => (tr, GetOutcome.done (Except.error e))
        | Except.ok p =>
          if p.ty = c.atoms.incr then
            let out := incrLoop c rs evs []
            (tr ++ out.1, out.2)
          else
            match into_vec 8 p with
            | Except.error e =>
                (tr, GetOutcome.done (Except.error
                  (GetSelectionError.PropertyInvalidFormat e)))
            | Except.ok v => (tr, GetOutcome.done (Except.ok v))

/-- X11Clipboard::get_targets (the list_targets operation): perform
get_selection_event with target atom `atoms.targets`, read CLIPBOX,
convert through into_vec::<u32>, drop zero atoms, and map the survivors
through XGetAtomName (the input `name_of`). -/
def get_targets (c : X11Clipboard) (intern : Nat → Nat) (name_of : Nat → Nat)
    (selection : Nat) (events : List XEventT) (replies : List GetPropReply) :
    List XRequest × GetOutcome (List Nat) :=
  let ev := get_selection_event c (intern selection) c.atoms.targets events
  match ev.2 with
  | none => (ev.1, GetOutcome.blocked)
  | some (Except.error e) => (ev.1, GetOutcome.done (Except.error e))
  | some (Except.ok _) =>
    match replies with
    | [] =>
        (ev.1 ++ [XRequest.getProperty c.window c.atoms.clipbox],
         GetOutcome.blocked)
    | r :: _ =>
      let tr := ev.1 ++ [XRequest.getProperty c.window c.atoms.clipbox]
      match get_clipbox_property r with
      | Except.error e => (tr, GetOutcome.done (Except.error e))
      | Except.ok p =>
        match into_vec 32 p with
        | Except.error e =>
            (tr, GetOutcome.done (Except.error
              (GetSelectionError.PropertyInvalidFormat e)))
        | Except.ok atoms =>
            (tr, GetOutcome.done (Except.ok
              ((atoms.filter (fun x => x ≠ 0)).map name_of)))

/-- The SelectionNotify the owner sends back, built from the (possibly
rewritten) request event: type_id SELECTION_NOTIFY, serial 0,
send_event 1, echoing requestor, selection, target, property, time. -/
def respondNotify (e : XSelectionRequestEvent) : XSelectionEvent :=
  ⟨e.requestor, e.selection, e.target, e.property, e.time⟩

/-- The SELECTION_REQUEST branch of the owner event loop in
X11Clipboard::set_selection: normalize property (0 becomes the target,
for obsolete clients), ignore requests whose owner or selection differ
from ours, then answer: the advertised target list for TARGETS, the whole
payload for the advertised data target when it fits below
max_request_size - 24, an INCR handshake otherwise, and a property = 0
refusal for any other target; in every answered case a SelectionNotify is
sent and the connection flushed.  Returns the issued requests and the
INCR send state recorded by this event (none = unchanged). -/
def handleSelectionRequest (c : X11Clipboard) (selAtom : Nat)
    (target_atoms : List Nat) (data : List Nat)
    (ev : XSelectionRequestEvent) :
    List XRequest × Option XSelectionRequestEvent :=
  let e : XSelectionRequestEvent :=
    ⟨ev.owner, ev.requestor, ev.selection, ev.target,
     if ev.property = 0 then ev.target else ev.property, ev.time⟩
  if e.owner ≠ c.window then ([], none)
  else if e.selection ≠ selAtom then ([], none)
  else if target_atoms.contains e.target then
    if e.target = c.atoms.targets then
      ([XRequest.changeProperty e.requestor e.property c.atoms.atom 32
          propModeReplace target_atoms,
        XRequest.sendEvent e.requestor (respondNotify e),
        XRequest.flush], none)
    else if data.length < c.max_request_size - 24 then
      ([XRequest.changeProperty e.requestor e.property e.target 8
          propModeReplace data,
        XRequest.sendEvent e.requestor (respondNotify e),
        XRequest.flush], none)
    else
      ([XRequest.selectInput e.requestor propertyChangeMask,
        XRequest.changeProperty e.requestor e.property c.atoms.incr 32
          propModeReplace [],
        XRequest.sendEvent e.requestor (respondNotify e),
        XRequest.flush], some e)
  else
    let e2 : XSelectionRequestEvent :=
      ⟨e.owner, e.requestor, e.selection, e.target, 0, e.time⟩
    ([XRequest.sendEvent e2.requestor (respondNotify e2),
      XRequest.flush], none)

/-- The owner event loop of X11Clipboard::set_selection, with its two
pieces of INCR send state (incr_bytes_sent, incr_start_xevent).
Exhausting the event list models the 100 ms idle timeout of
next_event_timeout: the loop returns success.  SELECTION_REQUEST events
go through handleSelectionRequest; a PropertyNotify with state DELETE
while an INCR send is recorded emits the next
data[sent .. min(sent + INCR_CHUNK_SIZE, data.len())] slice at format 8
to the stored (requestor, property, target), advances the cursor and
clears the state when the slice was empty; SELECTION_CLEAR returns
success immediately; everything else is ignored. -/
def ownerLoop (c : X11Clipboard) (selAtom : Nat) (target_atoms : List Nat)
    (data : List Nat) :
    List XEventT → Nat → Option XSelectionRequestEvent → List XRequest
  | [], _, _ => []
  | XEventT.selectionRequest e :: rest, sent, st =>
      let h := handleSelectionRequest c selAtom target_atoms data e
      h.1 ++ ownerLoop c selAtom target_atoms data rest sent
        (match h.2 with
         | none => st
         | some e2 => some e2)
  | XEventT.propertyNotify pe :: rest, sent, st =>
      if pe.state ≠ propertyDelete then
        ownerLoop c selAtom target_atoms data rest sent st
      else
        match st with
        | none => ownerLoop c selAtom target_atoms data rest sent st
        | some startEv =>
          let slice := (data.drop sent).take INCR_CHUNK_SIZE
          XRequest.changeProperty startEv.requestor startEv.property
              startEv.target 8 propModeReplace slice
            :: ownerLoop c selAtom target_atoms data rest (sent + slice.length)
                 (if slice = [] then none else some startEv)
  | XEventT.selectionClear :: _, _, _ => []
  | _ :: rest, sent, st => ownerLoop c selAtom target_atoms data rest sent st

/-- X11Clipboard::set_selection: obtain a compliant timestamp, issue
XSetSelectionOwner(selection, sink window, timestamp), verify ownership
through XGetSelectionOwner (its reply is the input `ownerReply`; NotOwner
when it differs from our window), build target_atoms =
[atoms.targets, intern target] and run the owner event loop. -/
def set_selection (c : X11Clipboard) (intern : Nat → Nat)
    (selection target : Nat) (data : List Nat) (ownerReply : Nat)
    (events : List XEventT) :
    List XRequest × Option (Except SetSelectionError Unit) :=
  let ts := get_compliant_timestamp c events
  match ts.2 with
  | none => (ts.1, none)
  | some (t, evs) =>
    let selAtom := intern selection
    let tr := ts.1 ++ [XRequest.setSelectionOwner selAtom c.window t]
    if ownerReply ≠ c.window then
      (tr, some (Except.error SetSelectionError.NotOwner))
    else
      let target_atoms := [c.atoms.targets, intern target]
      (tr ++ ownerLoop c selAtom target_atoms data evs 0 none,
       some (Except.ok ()))

/-! Concrete instances used by witnesses and counterexamples. -/

/-- A concrete atom table: the eleven well-known atoms interned at init,
with distinct server-assigned identifiers. -/
def atomsC : Atoms := ⟨1, 2, 3, 4, 5, 6, 7, 8, 9, 10, 11⟩

/-- A concrete session: sink window 1, the atoms above, and a negotiated
maximum request size of 8000 bytes. -/
def clipC : X11Clipboard := ⟨1, atomsC, 8000⟩

/-- A concrete name-to-atom table consistent with atomsC: the well-known
names map to their atomsC identifiers, unknown names to fresh atoms. -/
def internC : Nat → Nat := fun n =>
  if n = atom_names.CLIPBOARD then 3
  else if n = atom_names.UTF8_STRING then 8
  else if n = atom_names.TARGETS then 9
  else 100 + n

/-- Claim C10: calling get_selection with the TARGETS target name panics
(the code's explicit panic branch) instead of returning a
GetSelectionError, and no request is sent to the server: the request
trace is empty. -/
theorem get_selection_targets_panics (c : X11Clipboard) (intern : Nat → Nat)
    (selection : Nat) (events : List XEventT) (replies : List GetPropReply) :
    get_selection c intern selection atom_names.TARGETS events replies
      = ([], GetOutcome.panicked) := by
  simp [get_selection]

/-- Claim C3: while set_selection holds ownership, a SelectionRequest for
target TARGETS whose owner and selection match ours is answered by
writing exactly the two-atom array [TARGETS, target] to
(requestor, property) with type ATOM, format 32, mode REPLACE, followed
by a SelectionNotify echoing (selection, target, property, time) and a
flush; the INCR send state is untouched. -/
theorem ownerLoop_targets_response (c : X11Clipboard) (selAtom tgtAtom : Nat)
    (data : List Nat) (e : XSelectionRequestEvent) (rest : List XEventT)
    (sent : Nat) (st : Option XSelectionRequestEvent)
    (how : e.owner = c.window) (hsel : e.selection = selAtom)
    (htgt : e.target = c.atoms.targets) :
    ownerLoop c selAtom [c.atoms.targets, tgtAtom] data
        (XEventT.selectionRequest e :: rest) sent st
      = XRequest.changeProperty e.requestor
            (if e.property = 0 then e.target else e.property)
            c.atoms.atom 32 propModeReplace [c.atoms.targets, tgtAtom]
        :: XRequest.sendEvent e.requestor
             ⟨e.requestor, e.selection, e.target,
              (if e.property = 0 then e.target else e.property), e.time⟩
        :: XRequest.flush
        :: ownerLoop c selAtom [c.atoms.targets, tgtAtom] data rest sent st := by
  simp [ownerLoop, handleSelectionRequest, respondNotify, how, hsel, htgt]

/-- Witness for C3 at a concrete input. -/
theorem ownerLoop_targets_response_witness :
    ownerLoop clipC 3 [clipC.atoms.targets, 8] [1, 2]
        (XEventT.selectionRequest ⟨1, 77, 3, 9, 88, 50⟩ :: []) 0 none
      = XRequest.changeProperty 77 88 clipC.atoms.atom 32 propModeReplace
            [clipC.atoms.targets, 8]
        :: XRequest.sendEvent 77 ⟨77, 3, 9, 88, 50⟩
        :: XRequest.flush
        :: ownerLoop clipC 3 [clipC.atoms.targets, 8] [1, 2] [] 0 none := by
  exact ownerLoop_targets_response clipC 3 8 [1, 2] ⟨1, 77, 3, 9, 88, 50⟩ []
    0 none rfl rfl rfl

/-- Claim C9: a SelectionRequest (owner and selection matching ours)
whose target is neither TARGETS nor the advertised data target is
refused: the owner sends only a SelectionNotify with property = 0 and a
flush, and its handler issues no ChangeProperty at all. -/
theorem ownerLoop_refuses_unknown_target (c : X11Clipboard)
    (selAtom tgtAtom : Nat) (data : List Nat) (e : XSelectionRequestEvent)
    (rest : List XEventT) (sent : Nat) (st : Option XSelectionRequestEvent)
    (how : e.owner = c.window) (hsel : e.selection = selAtom)
    (h1 : e.target ≠ c.atoms.targets) (h2 : e.target ≠ tgtAtom) :
    ownerLoop c selAtom [c.atoms.targets, tgtAtom] data
        (XEventT.selectionRequest e :: rest) sent st
      = XRequest.sendEvent e.requestor ⟨e.requestor, e.selection, e.target, 0, e.time⟩
        :: XRequest.flush
        :: ownerLoop c selAtom [c.atoms.targets, tgtAtom] data rest sent st
    ∧ ∀ w pr ty f m dd, XRequest.changeProperty w pr ty f m dd
        ∉ (handleSelectionRequest c selAtom [c.atoms.targets, tgtAtom] data e).1 := by
  constructor
  · simp [ownerLoop, handleSelectionRequest, respondNotify, how, hsel, h1, h2]
  · intro w pr ty f m dd
    simp [handleSelectionRequest, respondNotify, how, hsel, h1, h2]

/-- Witness for C9 at a concrete input. -/
theorem ownerLoop_refuses_unknown_target_witness :
    ownerLoop clipC 3 [clipC.atoms.targets, 8] [1, 2]
        (XEventT.selectionRequest ⟨1, 77, 3, 55, 88, 50⟩ :: []) 0 none
      = XRequest.sendEvent 77 ⟨77, 3, 55, 0, 50⟩
        :: XRequest.flush
        :: ownerLoop clipC 3 [clipC.atoms.targets, 8] [1, 2] [] 0 none
    ∧ ∀ w pr ty f m dd, XRequest.changeProperty w pr ty f m dd
        ∉ (handleSelectionRequest clipC 3 [clipC.atoms.targets, 8] [1, 2]
            ⟨1, 77, 3, 55, 88, 50⟩).1 := by
  exact ownerLoop_refuses_unknown_target clipC 3 8 [1, 2] ⟨1, 77, 3, 55, 88, 50⟩
    [] 0 none rfl rfl (by decide) (by decide)

/-- Claim C4: in the owner event loop, a PropertyNotify with state Delete
while an INCR send state is recorded emits exactly the slice
data[cursor .. min(cursor + 4096, data.length)] at format 8, mode
REPLACE, to the stored (requestor, property, target); the cursor advances
by the slice length and the INCR send state is cleared exactly when the
slice is empty. -/
theorem ownerLoop_incr_chunk (c : X11Clipboard) (selAtom : Nat)
    (target_atoms : List Nat) (data : List Nat) (pe : XPropertyEvent)
    (rest : List XEventT) (sent : Nat) (startEv : XSelectionRequestEvent)
    (hst : pe.state = propertyDelete) :
    ownerLoop c selAtom target_atoms data (XEventT.propertyNotify pe :: rest)
        sent (some startEv)
      = XRequest.changeProperty startEv.requestor startEv.property
            startEv.target 8 propModeReplace
            ((data.drop sent).take INCR_CHUNK_SIZE)
        :: ownerLoop c selAtom target_atoms data rest
             (sent + ((data.drop sent).take INCR_CHUNK_SIZE).length)
             (if (data.drop sent).take INCR_CHUNK_SIZE = [] then none
              else some startEv)
    ∧ (data.drop sent).take INCR_CHUNK_SIZE
        = (data.take (min (sent + INCR_CHUNK_SIZE) data.length)).drop sent := by
  constructor
  · simp [ownerLoop, hst, propertyDelete]
  · rw [List.drop_take, List.take_eq_take]
    simp [List.length_drop]
    omega

/-- Witness for C4 at a concrete input: a 5-byte payload already sent up
to cursor 2, chunk size clamps at the end of the payload. -/
theorem ownerLoop_incr_chunk_witness :
    ownerLoop clipC 3 [9, 8] [1, 2, 3, 4, 5] (XEventT.propertyNotify ⟨4, 1, 60⟩ :: [])
        2 (some ⟨1, 77, 3, 8, 88, 50⟩)
      = XRequest.changeProperty 77 88 8 8 propModeReplace
            (([1, 2, 3, 4, 5].drop 2).take INCR_CHUNK_SIZE)
        :: ownerLoop clipC 3 [9, 8] [1, 2, 3, 4, 5] []
             (2 + (([1, 2, 3, 4, 5].drop 2).take INCR_CHUNK_SIZE).length)
             (if ([1, 2, 3, 4, 5].drop 2).take INCR_CHUNK_SIZE = [] then none
              else some ⟨1, 77, 3, 8, 88, 50⟩)
    ∧ ([1, 2, 3, 4, 5].drop 2).take INCR_CHUNK_SIZE
        = ([1, 2, 3, 4, 5].take (min (2 + INCR_CHUNK_SIZE) [1, 2, 3, 4, 5].length)).drop 2 := by
  exact ownerLoop_incr_chunk clipC 3 [9, 8] [1, 2, 3, 4, 5] ⟨4, 1, 60⟩ [] 2
    ⟨1, 77, 3, 8, 88, 50⟩ rfl

/-- Claim C2: on the non-INCR path (property type differs from INCR),
get_selection returns exactly nitems bytes of the fetched property when
its format is 8 (the server buffer holds nitems items, embedded as
nitems ≤ data length), and fails with InvalidFormat (wanted 8, actual
format) whenever the format differs from 8. -/
theorem get_selection_fast_path (c : X11Clipboard) (intern : Nat → Nat)
    (selection target : Nat) (d : XPropertyEvent) (se : XSelectionEvent)
    (rest : List XEventT) (r : GetPropReply) (rs : List GetPropReply)
    (dta : List Nat)
    (htgt : target ≠ atom_names.TARGETS)
    (hd : d.atom = c.atoms.clipbox_dummy)
    (h1 : se.requestor = c.window) (h2 : se.selection = intern selection)
    (h3 : se.target = intern target) (h4 : se.property ≠ 0)
    (hst : r.status = errcodeSuccess) (hdata : r.data = some dta)
    (hty : r.ty ≠ c.atoms.incr) :
    (r.format = 8 → r.nitems ≤ dta.length →
      (get_selection c intern selection target
          (XEventT.propertyNotify d :: XEventT.selectionNotify se :: rest)
          (r :: rs)).2
        = GetOutcome.done (Except.ok (dta.take r.nitems))
      ∧ (dta.take r.nitems).length = r.nitems)
    ∧ (r.format ≠ 8 →
      (get_selection c intern selection target
          (XEventT.propertyNotify d :: XEventT.selectionNotify se :: rest)
          (r :: rs)).2
        = GetOutcome.done (Except.error
            (GetSelectionError.PropertyInvalidFormat ⟨8, r.format⟩))) := by
  constructor
  · intro hfmt hlen
    constructor
    · simp [get_selection, get_selection_event, get_compliant_timestamp,
        findDummyNotify, awaitSelectionNotify, get_clipbox_property,
        into_vec, write_into_vec, check_format_compatible,
        htgt, hd, h1, h2, h3, h4, hst, hdata, hty, hfmt]
    · simp [List.length_take]
      omega
  · intro hfmt
    simp [get_selection, get_selection_event, get_compliant_timestamp,
      findDummyNotify, awaitSelectionNotify, get_clipbox_property,
      into_vec, write_into_vec, check_format_compatible,
      htgt, hd, h1, h2, h3, h4, hst, hdata, hty, hfmt]

/-- Witness for C2 at a concrete input: a 3-byte STRING property. -/
theorem get_selection_fast_path_witness :
    ((8 : Nat) = 8 → (3 : Nat) ≤ ([1, 2, 3] : List Nat).length →
      (get_selection clipC internC atom_names.CLIPBOARD atom_names.UTF8_STRING
          (XEventT.propertyNotify ⟨5, 0, 42⟩ :: XEventT.selectionNotify ⟨1, 3, 8, 4, 43⟩ :: [])
          (⟨0, 6, 8, 3, 0, some [1, 2, 3]⟩ :: [])).2
        = GetOutcome.done (Except.ok (([1, 2, 3] : List Nat).take 3))
      ∧ (([1, 2, 3] : List Nat).take 3).length = 3)
    ∧ ((8 : Nat) ≠ 8 →
      (get_selection clipC internC atom_names.CLIPBOARD atom_names.UTF8_STRING
          (XEventT.propertyNotify ⟨5, 0, 42⟩ :: XEventT.selectionNotify ⟨1, 3, 8, 4, 43⟩ :: [])
          (⟨0, 6, 8, 3, 0, some [1, 2, 3]⟩ :: [])).2
        = GetOutcome.done (Except.error
            (GetSelectionError.PropertyInvalidFormat ⟨8, 8⟩))) := by
  exact get_selection_fast_path clipC internC atom_names.CLIPBOARD
    atom_names.UTF8_STRING ⟨5, 0, 42⟩ ⟨1, 3, 8, 4, 43⟩ []
    ⟨0, 6, 8, 3, 0, some [1, 2, 3]⟩ [] [1, 2, 3]
    (by decide) rfl rfl rfl rfl (by decide) rfl rfl (by decide)

/-- Counterexample to claim C7: the SelectionNotify answering the
ConvertSelection carries property 99, which is neither 0 nor the SCRATCH
atom (clipbox = 4), yet get_selection succeeds and returns the bytes of
SCRATCH instead of failing: the code never compares the notify's
property against SCRATCH, and GetSelectionError has no UnexpectedProperty
variant at all. -/
theorem get_selection_no_unexpected_property_cex :
    (get_selection clipC internC atom_names.CLIPBOARD atom_names.UTF8_STRING
        [XEventT.propertyNotify ⟨5, 0, 42⟩,
         XEventT.selectionNotify ⟨1, 3, 8, 99, 43⟩]
        [⟨0, 6, 8, 3, 0, some [1, 2, 3]⟩]).2
      = GetOutcome.done (Except.ok [1, 2, 3])
    ∧ (99 : Nat) ≠ clipC.atoms.clipbox ∧ (99 : Nat) ≠ 0 := by
  exact ⟨by decide, by decide, by decide⟩

/-- Amended claim C7: when the matching SelectionNotify carries any
non-zero property — SCRATCH or not — the paste-side request proceeds (the
event is accepted and SCRATCH is read); the only property-field failure
is SelectionLost when the property is 0.  No UnexpectedProperty check
exists in the code. -/
theorem get_selection_event_property_unchecked (c : X11Clipboard)
    (selAtom tgtAtom : Nat) (d : XPropertyEvent) (se : XSelectionEvent)
    (rest : List XEventT)
    (hd : d.atom = c.atoms.clipbox_dummy)
    (h1 : se.requestor = c.window) (h2 : se.selection = selAtom)
    (h3 : se.target = tgtAtom) :
    (se.property ≠ 0 →
      (get_selection_event c selAtom tgtAtom
          (XEventT.propertyNotify d :: XEventT.selectionNotify se :: rest)).2
        = some (Except.ok (se, rest)))
    ∧ (se.property = 0 →
      (get_selection_event c selAtom tgtAtom
          (XEventT.propertyNotify d :: XEventT.selectionNotify se :: rest)).2
        = some (Except.error GetSelectionError.SelectionLost)) := by
  constructor
  · intro h4
    simp [get_selection_event, get_compliant_timestamp, findDummyNotify,
      awaitSelectionNotify, hd, h1, h2, h3, h4]
  · intro h4
    simp [get_selection_event, get_compliant_timestamp, findDummyNotify,
      awaitSelectionNotify, hd, h1, h2, h3, h4]

/-- Witness for the amended C7 at a concrete input (property 99). -/
theorem get_selection_event_property_unchecked_witness :
    ((99 : Nat) ≠ 0 →
      (get_selection_event clipC 3 8
          (XEventT.propertyNotify ⟨5, 0, 42⟩
            :: XEventT.selectionNotify ⟨1, 3, 8, 99, 43⟩ :: [])).2
        = some (Except.ok (⟨1, 3, 8, 99, 43⟩, [])))
    ∧ ((99 : Nat) = 0 →
      (get_selection_event clipC 3 8
          (XEventT.propertyNotify ⟨5, 0, 42⟩
            :: XEventT.selectionNotify ⟨1, 3, 8, 99, 43⟩ :: [])).2
        = some (Except.error GetSelectionError.SelectionLost)) := by
  exact get_selection_event_property_unchecked clipC 3 8 ⟨5, 0, 42⟩
    ⟨1, 3, 8, 99, 43⟩ [] rfl rfl rfl rfl

/-- Counterexample to claim C8: with SCRATCH holding the 32-bit atoms
[7, 0, 9] and XGetAtomName embedded as the name table fun a => a + 100,
list_targets returns [107, 109] — the NAMES of the nonzero atoms as
returned by XGetAtomName — and not the atom sequence [7, 9] the claim
describes: get_targets maps every surviving atom through XGetAtomName
before returning. -/
theorem get_targets_returns_names_cex :
    (get_targets clipC internC (fun a => a + 100) atom_names.CLIPBOARD
        [XEventT.propertyNotify ⟨5, 0, 42⟩,
         XEventT.selectionNotify ⟨1, 3, 9, 4, 43⟩]
        [⟨0, 11, 32, 3, 0, some [7, 0, 9]⟩]).2
      = GetOutcome.done (Except.ok [107, 109])
    ∧ (get_targets clipC internC (fun a => a + 100) atom_names.CLIPBOARD
        [XEventT.propertyNotify ⟨5, 0, 42⟩,
         XEventT.selectionNotify ⟨1, 3, 9, 4, 43⟩]
        [⟨0, 11, 32, 3, 0, some [7, 0, 9]⟩]).2
      ≠ GetOutcome.done (Except.ok (([7, 0, 9] : List Nat).filter (fun x => x ≠ 0))) := by
  exact ⟨by decide, by decide⟩

/-- Amended claim C8: get_targets reinterprets the SCRATCH property as
32-bit atoms (its format must be 32, otherwise InvalidFormat with
wanted 32), filters out the zero (sentinel) atoms, and returns the NAMES
of the surviving atoms obtained through XGetAtomName; the filtered atom
sequence itself never contains a zero atom. -/
theorem get_targets_names_of_nonzero_atoms (c : X11Clipboard)
    (intern : Nat → Nat) (name_of : Nat → Nat) (selection : Nat)
    (d : XPropertyEvent) (se : XSelectionEvent) (rest : List XEventT)
    (r : GetPropReply) (rs : List GetPropReply) (dta : List Nat)
    (hd : d.atom = c.atoms.clipbox_dummy)
    (h1 : se.requestor = c.window) (h2 : se.selection = intern selection)
    (h3 : se.target = c.atoms.targets) (h4 : se.property ≠ 0)
    (hst : r.status = errcodeSuccess) (hdata : r.data = some dta) :
    (r.format = 32 →
      (get_targets c intern name_of selection
          (XEventT.propertyNotify d :: XEventT.selectionNotify se :: rest)
          (r :: rs)).2
        = GetOutcome.done (Except.ok
            (((dta.take r.nitems).filter (fun x => x ≠ 0)).map name_of))
      ∧ (0 : Nat) ∉ (dta.take r.nitems).filter (fun x => x ≠ 0))
    ∧ (r.format ≠ 32 →
      (get_targets c intern name_of selection
          (XEventT.propertyNotify d :: XEventT.selectionNotify se :: rest)
          (r :: rs)).2
        = GetOutcome.done (Except.error
            (GetSelectionError.PropertyInvalidFormat ⟨32, r.format⟩))) := by
  constructor
  · intro hfmt
    constructor
    · simp [get_targets, get_selection_event, get_compliant_timestamp,
        findDummyNotify, awaitSelectionNotify, get_clipbox_property,
        into_vec, write_into_vec, check_format_compatible,
        hd, h1, h2, h3, h4, hst, hdata, hfmt]
    · simp [List.mem_filter]
  · intro hfmt
    simp [get_targets, get_selection_event, get_compliant_timestamp,
      findDummyNotify, awaitSelectionNotify, get_clipbox_property,
      into_vec, write_into_vec, check_format_compatible,
      hd, h1, h2, h3, h4, hst, hdata, hfmt]

/-- Witness for the amended C8 at a concrete input. -/
theorem get_targets_names_of_nonzero_atoms_witness :
    ((32 : Nat) = 32 →
      (get_targets clipC internC (fun a => a + 100) atom_names.CLIPBOARD
          (XEventT.propertyNotify ⟨5, 0, 42⟩
            :: XEventT.selectionNotify ⟨1, 3, 9, 4, 43⟩ :: [])
          (⟨0, 11, 32, 3, 0, some [7, 0, 9]⟩ :: [])).2
        = GetOutcome.done (Except.ok
            (((([7, 0, 9] : List Nat).take 3).filter (fun x => x ≠ 0)).map (fun a => a + 100)))
      ∧ (0 : Nat) ∉ (([7, 0, 9] : List Nat).take 3).filter (fun x => x ≠ 0))
    ∧ ((32 : Nat) ≠ 32 →
      (get_targets clipC internC (fun a => a + 100) atom_names.CLIPBOARD
          (XEventT.propertyNotify ⟨5, 0, 42⟩
            :: XEventT.selectionNotify ⟨1, 3, 9, 4, 43⟩ :: [])
          (⟨0, 11, 32, 3, 0, some [7, 0, 9]⟩ :: [])).2
        = GetOutcome.done (Except.error
            (GetSelectionError.PropertyInvalidFormat ⟨32, 32⟩))) := by
  exact get_targets_names_of_nonzero_atoms clipC internC (fun a => a + 100)
    atom_names.CLIPBOARD ⟨5, 0, 42⟩ ⟨1, 3, 9, 4, 43⟩ []
    ⟨0, 11, 32, 3, 0, some [7, 0, 9]⟩ [] [7, 0, 9]
    rfl rfl rfl rfl (by decide) rfl rfl

/-- Counterexample to claim C6: an INCR transfer in which every
PropertyNotify available to the receive loop is on the DUMMY atom
(clipbox_dummy = 5), never on SCRATCH (clipbox = 4), with state NewValue.
The claim says such events must not trigger a chunk read, so the run
should stay blocked waiting on a SCRATCH notify; instead both iterations
proceed — the chunk [9, 9] is read and the terminal chunk consumed — and
get_selection completes with Ok [9, 9]: the code checks only the state
field of the PropertyNotify, never its property atom. -/
theorem incr_read_on_dummy_notify_cex :
    (get_selection clipC internC atom_names.CLIPBOARD atom_names.UTF8_STRING
        [XEventT.propertyNotify ⟨5, 0, 42⟩,
         XEventT.selectionNotify ⟨1, 3, 8, 4, 43⟩,
         XEventT.propertyNotify ⟨5, propertyNewValue, 44⟩,
         XEventT.propertyNotify ⟨5, propertyNewValue, 45⟩]
        [⟨0, 10, 32, 0, 0, some []⟩,
         ⟨0, 6, 8, 2, 0, some [9, 9]⟩,
         ⟨0, 6, 8, 0, 0, some []⟩]).2
      = GetOutcome.done (Except.ok [9, 9])
    ∧ (5 : Nat) = clipC.atoms.clipbox_dummy
    ∧ (5 : Nat) ≠ clipC.atoms.clipbox := by
  exact ⟨by decide, by decide, by decide⟩

/-- Amended claim C6: each iteration of the INCR receive loop proceeds on
the first PropertyNotify whose state is NewValue regardless of which
property the event names — the loop's behaviour is identical for two
NewValue notifies that differ in every other field (atom and time);
PropertyNotify events for other properties, DUMMY included, do trigger
the chunk read. -/
theorem incrLoop_ignores_notify_atom (c : X11Clipboard)
    (replies : List GetPropReply) (e e2 : XPropertyEvent)
    (rest : List XEventT) (acc : List Nat)
    (h : e.state = propertyNewValue) (h2 : e2.state = propertyNewValue) :
    incrLoop c replies (XEventT.propertyNotify e :: rest) acc
      = incrLoop c replies (XEventT.propertyNotify e2 :: rest) acc := by
  rw [incrLoop, incrLoop]
  simp [awaitNewValue, h, h2]

/-- Witness for the amended C6 at a concrete input: a NewValue notify on
DUMMY behaves exactly like one on SCRATCH. -/
theorem incrLoop_ignores_notify_atom_witness :
    incrLoop clipC [⟨0, 6, 8, 0, 0, some []⟩]
        (XEventT.propertyNotify ⟨5, propertyNewValue, 44⟩ :: []) []
      = incrLoop clipC [⟨0, 6, 8, 0, 0, some []⟩]
        (XEventT.propertyNotify ⟨4, propertyNewValue, 99⟩ :: []) [] := by
  exact incrLoop_ignores_notify_atom clipC [⟨0, 6, 8, 0, 0, some []⟩]
    ⟨5, propertyNewValue, 44⟩ ⟨4, propertyNewValue, 99⟩ [] [] rfl rfl

/-- awaitNewValue steps through one NewValue PropertyNotify of a
replicated stream. -/
lemma awaitNewValue_replicate (n t0 x : Nat) :
    awaitNewValue (List.replicate (n + 1)
        (XEventT.propertyNotify ⟨x, propertyNewValue, t0⟩))
      = some (List.replicate n (XEventT.propertyNotify ⟨x, propertyNewValue, t0⟩)) := by
  rw [List.replicate_succ]
  simp [awaitNewValue]

/-- The INCR receive loop on a well-formed stream of nonempty chunks
followed by the terminal empty chunk: it deletes SCRATCH and reads one
reply per iteration and accumulates the chunks in arrival order. -/
lemma incrLoop_chunks (c : X11Clipboard) (t0 : Nat) (chunks : List (List Nat))
    (acc : List Nat) (h : ∀ cd ∈ chunks, cd ≠ []) :
    incrLoop c
        (chunks.map (fun cd => (⟨0, 0, 8, cd.length, 0, some cd⟩ : GetPropReply))
          ++ [⟨0, 0, 8, 0, 0, some []⟩])
        (List.replicate (chunks.length + 1)
          (XEventT.propertyNotify ⟨c.atoms.clipbox, propertyNewValue, t0⟩))
        acc
      = ((List.replicate (chunks.length + 1)
            [XRequest.deleteProperty c.window c.atoms.clipbox,
             XRequest.getProperty c.window c.atoms.clipbox]).flatten,
         GetOutcome.done (Except.ok (acc ++ chunks.flatten))) := by
  induction chunks generalizing acc with
  | nil =>
      rw [incrLoop]
      simp [awaitNewValue, get_clipbox_property, errcodeSuccess]
  | cons cd cds ih =>
      have hcd : cd.length ≠ 0 := by
        simpa using fun hz => h cd (by simp) (List.length_eq_zero.mp hz)
      have ih2 := ih (acc ++ cd) (fun x hx => h x (by simp [hx]))
      rw [incrLoop]
      simp only [List.length_cons, List.map_cons, List.cons_append,
        awaitNewValue_replicate]
      simp only [get_clipbox_property, errcodeSuccess]
      simp only [write_into_vec, check_format_compatible]
      simp only [List.replicate_succ, List.flatten_cons] at ih2
      simp [hcd, ih2, List.replicate_succ, List.flatten_cons]

/-- Claim C1: on an INCR-typed transfer, get_selection returns exactly
the concatenation of the byte chunks read from SCRATCH, in arrival
order, up to but excluding the terminal chunk with nitems = 0; the
request trace shows SCRATCH being deleted before each chunk is awaited
and read (one [DeleteProperty, GetProperty] pair per iteration,
terminal iteration included). -/
theorem get_selection_incr_concat (c : X11Clipboard) (intern : Nat → Nat)
    (selection target : Nat) (chunks : List (List Nat)) (d : XPropertyEvent)
    (se : XSelectionEvent) (t0 : Nat)
    (htgt : target ≠ atom_names.TARGETS)
    (hd : d.atom = c.atoms.clipbox_dummy)
    (h1 : se.requestor = c.window) (h2 : se.selection = intern selection)
    (h3 : se.target = intern target) (h4 : se.property ≠ 0)
    (hch : ∀ cd ∈ chunks, cd ≠ []) :
    get_selection c intern selection target
        (XEventT.propertyNotify d :: XEventT.selectionNotify se ::
          List.replicate (chunks.length + 1)
            (XEventT.propertyNotify ⟨c.atoms.clipbox, propertyNewValue, t0⟩))
        ((⟨0, c.atoms.incr, 32, 0, 0, some []⟩ : GetPropReply) ::
          (chunks.map (fun cd => (⟨0, 0, 8, cd.length, 0, some cd⟩ : GetPropReply))
            ++ [⟨0, 0, 8, 0, 0, some []⟩]))
      = (XRequest.changeProperty c.window c.atoms.clipbox_dummy c.atoms.string 8
             propModeAppend []
          :: XRequest.convertSelection (intern selection) (intern target)
               c.atoms.clipbox c.window d.time
          :: XRequest.getProperty c.window c.atoms.clipbox
          :: (List.replicate (chunks.length + 1)
               [XRequest.deleteProperty c.window c.atoms.clipbox,
                XRequest.getProperty c.window c.atoms.clipbox]).flatten,
         GetOutcome.done (Except.ok chunks.flatten)) := by
  have hloop := incrLoop_chunks c t0 chunks [] hch
  simp [get_selection, get_selection_event, get_compliant_timestamp,
    findDummyNotify, awaitSelectionNotify, get_clipbox_property, errcodeSuccess,
    htgt, hd, h1, h2, h3, h4, hloop]

/-- Witness for C1 at a concrete input: two chunks [1, 2] and [3]
followed by the terminal empty chunk. -/
theorem get_selection_incr_concat_witness :
    get_selection clipC internC atom_names.CLIPBOARD atom_names.UTF8_STRING
        (XEventT.propertyNotify ⟨5, 0, 42⟩ :: XEventT.selectionNotify ⟨1, 3, 8, 4, 43⟩ ::
          List.replicate (([[1, 2], [3]] : List (List Nat)).length + 1)
            (XEventT.propertyNotify ⟨clipC.atoms.clipbox, propertyNewValue, 44⟩))
        ((⟨0, clipC.atoms.incr, 32, 0, 0, some []⟩ : GetPropReply) ::
          (([[1, 2], [3]] : List (List Nat)).map
              (fun cd => (⟨0, 0, 8, cd.length, 0, some cd⟩ : GetPropReply))
            ++ [⟨0, 0, 8, 0, 0, some []⟩]))
      = (XRequest.changeProperty clipC.window clipC.atoms.clipbox_dummy
             clipC.atoms.string 8 propModeAppend []
          :: XRequest.convertSelection (internC atom_names.CLIPBOARD)
               (internC atom_names.UTF8_STRING) clipC.atoms.clipbox clipC.window 42
          :: XRequest.getProperty clipC.window clipC.atoms.clipbox
          :: (List.replicate (([[1, 2], [3]] : List (List Nat)).length + 1)
               [XRequest.deleteProperty clipC.window clipC.atoms.clipbox,
                XRequest.getProperty clipC.window clipC.atoms.clipbox]).flatten,
         GetOutcome.done (Except.ok (([[1, 2], [3]] : List (List Nat)).flatten))) := by
  exact get_selection_incr_concat clipC internC atom_names.CLIPBOARD
    atom_names.UTF8_STRING [[1, 2], [3]] ⟨5, 0, 42⟩ ⟨1, 3, 8, 4, 43⟩ 44
    (by decide) rfl rfl rfl rfl (by decide) (by decide)

/-- The timestamp drain returns the time of a PropertyNotify on DUMMY
that occurs in the event stream. -/
lemma findDummyNotify_mem (a : Atoms) (events : List XEventT) (t : Nat)
    (rest : List XEventT) (h : findDummyNotify a events = some (t, rest)) :
    ∃ pe : XPropertyEvent, XEventT.propertyNotify pe ∈ events ∧
      pe.atom = a.clipbox_dummy ∧ pe.time = t := by
  induction events with
  | nil => simp [findDummyNotify] at h
  | cons ev evs ih =>
      cases ev with
      | propertyNotify pe =>
          by_cases hp : pe.atom = a.clipbox_dummy
          · simp [findDummyNotify, hp] at h
            exact ⟨pe, by simp, hp, h.1⟩
          · simp [findDummyNotify, hp] at h
            obtain ⟨pe2, hmem, ha, ht⟩ := ih h
            exact ⟨pe2, by simp [hmem], ha, ht⟩
      | selectionNotify e =>
          simp [findDummyNotify] at h
          obtain ⟨pe2, hmem, ha, ht⟩ := ih h
          exact ⟨pe2, by simp [hmem], ha, ht⟩
      | selectionRequest e =>
          simp [findDummyNotify] at h
          obtain ⟨pe2, hmem, ha, ht⟩ := ih h
          exact ⟨pe2, by simp [hmem], ha, ht⟩
      | selectionClear =>
          simp [findDummyNotify] at h
          obtain ⟨pe2, hmem, ha, ht⟩ := ih h
          exact ⟨pe2, by simp [hmem], ha, ht⟩
      | otherEvent n =>
          simp [findDummyNotify] at h
          obtain ⟨pe2, hmem, ha, ht⟩ := ih h
          exact ⟨pe2, by simp [hmem], ha, ht⟩

/-- Every request of the INCR receive loop trace is a DeleteProperty or a
GetProperty on (sink window, SCRATCH). -/
lemma incrLoop_mem (c : X11Clipboard) (replies : List GetPropReply)
    (events : List XEventT) (acc : List Nat) (req : XRequest)
    (h : req ∈ (incrLoop c replies events acc).1) :
    req = XRequest.deleteProperty c.window c.atoms.clipbox
    ∨ req = XRequest.getProperty c.window c.atoms.clipbox := by
  induction replies generalizing events acc with
  | nil =>
      rw [incrLoop] at h
      cases hev : awaitNewValue events with
      | none => rw [hev] at h; simp at h; simp [h]
      | some evs => rw [hev] at h; simp at h; rcases h with h | h <;> simp [h]
  | cons r rs ih =>
      rw [incrLoop] at h
      cases hev : awaitNewValue events with
      | none => rw [hev] at h; simp at h; simp [h]
      | some evs =>
          rw [hev] at h
          dsimp only at h
          cases hg : get_clipbox_property r with
          | error e => rw [hg] at h; simp at h; rcases h with h | h <;> simp [h]
          | ok p =>
              rw [hg] at h
              by_cases hn : p.nitems = 0
              · simp [hn] at h; rcases h with h | h <;> simp [h]
              · cases hw : write_into_vec 8 p acc with
                | error e =>
                    simp [hn, hw] at h
                    rcases h with h | h <;> simp [h]
                | ok acc2 =>
                    simp [hn, hw] at h
                    rcases h with h | h | h
                    · simp [h]
                    · simp [h]
                    · exact ih evs acc2 h

/-- The SelectionRequest handler never issues a SetSelectionOwner
request. -/
lemma handleSelectionRequest_no_owner_request (c : X11Clipboard)
    (selAtom : Nat) (target_atoms : List Nat) (data : List Nat)
    (ev : XSelectionRequestEvent) (s o t : Nat) :
    XRequest.setSelectionOwner s o t
      ∉ (handleSelectionRequest c selAtom target_atoms data ev).1 := by
  simp only [handleSelectionRequest]
  split_ifs <;> simp [respondNotify]

/-- The owner event loop never issues a SetSelectionOwner request. -/
lemma ownerLoop_no_owner_request (c : X11Clipboard) (selAtom : Nat)
    (target_atoms : List Nat) (data : List Nat) (events : List XEventT)
    (sent : Nat) (st : Option XSelectionRequestEvent) (s o t : Nat) :
    XRequest.setSelectionOwner s o t
      ∉ ownerLoop c selAtom target_atoms data events sent st := by
  induction events generalizing sent st with
  | nil => simp [ownerLoop]
  | cons ev evs ih =>
      cases ev with
      | propertyNotify pe =>
          by_cases hst : pe.state = propertyDelete
          · cases st with
            | none => simpa [ownerLoop, hst] using ih sent none
            | some startEv => simpa [ownerLoop, hst] using ih _ _
          · simpa [ownerLoop, hst] using ih sent st
      | selectionNotify e => simpa [ownerLoop] using ih sent st
      | selectionRequest e =>
          intro h
          simp [ownerLoop] at h
          rcases h with h | h
          · exact handleSelectionRequest_no_owner_request c selAtom
              target_atoms data e s o t h
          · exact ih _ _ h
      | selectionClear => simp [ownerLoop]
      | otherEvent n => simpa [ownerLoop] using ih sent st

/-- The request trace of get_selection_event: the DUMMY zero-length
append first, then — as soon as the timestamp arrived — exactly one
ConvertSelection carrying that timestamp. -/
lemma get_selection_event_trace (c : X11Clipboard) (selAtom tgtAtom : Nat)
    (events : List XEventT) :
    (findDummyNotify c.atoms events = none ∧
      (get_selection_event c selAtom tgtAtom events).1
        = [XRequest.changeProperty c.window c.atoms.clipbox_dummy
             c.atoms.string 8 propModeAppend []]) ∨
    (∃ t rest, findDummyNotify c.atoms events = some (t, rest) ∧
      (get_selection_event c selAtom tgtAtom events).1
        = [XRequest.changeProperty c.window c.atoms.clipbox_dummy
             c.atoms.string 8 propModeAppend [],
           XRequest.convertSelection selAtom tgtAtom c.atoms.clipbox
             c.window t]) := by
  rcases hf : findDummyNotify c.atoms events with _ | ⟨t, rest⟩
  · left
    refine ⟨rfl, ?_⟩
    simp [get_selection_event, get_compliant_timestamp, hf]
  · right
    refine ⟨t, rest, rfl, ?_⟩
    simp only [get_selection_event, get_compliant_timestamp, hf]
    rcases haw : awaitSelectionNotify c.window selAtom tgtAtom rest with _ | x
    · simp
    · rcases x with e | ⟨e, evs2⟩
      · simp
      · by_cases hp : e.property = 0 <;> simp [hp]

/-- The request trace of get_selection decomposes as the
get_selection_event trace followed by property reads and deletions
only. -/
lemma get_selection_trace_split (c : X11Clipboard) (intern : Nat → Nat)
    (selection target : Nat) (events : List XEventT)
    (replies : List GetPropReply) (htgt : target ≠ atom_names.TARGETS) :
    ∃ tail, (get_selection c intern selection target events replies).1
        = (get_selection_event c (intern selection) (intern target) events).1
            ++ tail
      ∧ ∀ req ∈ tail, req = XRequest.deleteProperty c.window c.atoms.clipbox
          ∨ req = XRequest.getProperty c.window c.atoms.clipbox := by
  simp only [get_selection, if_neg htgt]
  rcases hev : (get_selection_event c (intern selection) (intern target) events).2
    with _ | x
  · exact ⟨[], by simp, by simp⟩
  · rcases x with e | ⟨e, evs⟩
    · exact ⟨[], by simp, by simp⟩
    · rcases replies with _ | ⟨r, rs⟩
      · exact ⟨[XRequest.getProperty c.window c.atoms.clipbox], rfl, by simp⟩
      · rcases hg : get_clipbox_property r with e2 | p
        · exact ⟨[XRequest.getProperty c.window c.atoms.clipbox], by simp [hg], by simp⟩
        · by_cases hty : p.ty = c.atoms.incr
          · refine ⟨XRequest.getProperty c.window c.atoms.clipbox
                :: (incrLoop c rs evs []).1, ?_, ?_⟩
            · simp [hg, hty]
            · intro req hreq
              rw [List.mem_cons] at hreq
              rcases hreq with rfl | hreq
              · right
                rfl
              · exact incrLoop_mem c rs evs [] req hreq
          · rcases hw : into_vec 8 p with e3 | v
            · exact ⟨[XRequest.getProperty c.window c.atoms.clipbox],
                by simp [hg, hty, hw], by simp⟩
            · exact ⟨[XRequest.getProperty c.window c.atoms.clipbox],
                by simp [hg, hty, hw], by simp⟩

/-- The request trace of set_selection: the DUMMY zero-length append
first, then — as soon as the timestamp arrived — exactly one
SetSelectionOwner carrying that timestamp, followed by a tail free of
SetSelectionOwner requests. -/
lemma set_selection_trace (c : X11Clipboard) (intern : Nat → Nat)
    (selection target : Nat) (data : List Nat) (ownerReply : Nat)
    (events : List XEventT) :
    (findDummyNotify c.atoms events = none ∧
      (set_selection c intern selection target data ownerReply events).1
        = [XRequest.changeProperty c.window c.atoms.clipbox_dummy
             c.atoms.string 8 propModeAppend []]) ∨
    (∃ t rest tail, findDummyNotify c.atoms events = some (t, rest) ∧
      (set_selection c intern selection target data ownerReply events).1
        = XRequest.changeProperty c.window c.atoms.clipbox_dummy
            c.atoms.string 8 propModeAppend []
          :: XRequest.setSelectionOwner (intern selection) c.window t
          :: tail
      ∧ ∀ s o t2, XRequest.setSelectionOwner s o t2 ∉ tail) := by
  rcases hf : findDummyNotify c.atoms events with _ | ⟨t, rest⟩
  · left
    refine ⟨rfl, ?_⟩
    simp [set_selection, get_compliant_timestamp, hf]
  · right
    by_cases how : ownerReply = c.window
    · refine ⟨t, rest,
        ownerLoop c (intern selection) [c.atoms.targets, intern target]
          data rest 0 none, rfl, ?_, ?_⟩
      · simp [set_selection, get_compliant_timestamp, hf, how]
      · intro s o t2
        exact ownerLoop_no_owner_request c (intern selection)
          [c.atoms.targets, intern target] data rest 0 none s o t2
    · refine ⟨t, rest, [], rfl, ?_, by simp⟩
      simp [set_selection, get_compliant_timestamp, hf, how]

/-- Claim C5: the compliant-timestamp procedure (zero-length append on
DUMMY) is the first request of both get_selection and set_selection, and
every ConvertSelection or SetSelectionOwner the core issues carries the
time field of a PropertyNotify on DUMMY found in the event stream — in
particular, assuming the server stamps those notifies with nonzero
times, never time = 0 (CurrentTime). -/
theorem timestamp_compliance (c : X11Clipboard) (intern : Nat → Nat)
    (selection target : Nat) (data : List Nat) (ownerReply : Nat)
    (events : List XEventT) (replies : List GetPropReply)
    (htgt : target ≠ atom_names.TARGETS)
    (htime : ∀ pe : XPropertyEvent, XEventT.propertyNotify pe ∈ events →
      pe.atom = c.atoms.clipbox_dummy → pe.time ≠ 0) :
    (get_selection c intern selection target events replies).1.head?
        = some (XRequest.changeProperty c.window c.atoms.clipbox_dummy
            c.atoms.string 8 propModeAppend [])
    ∧ (set_selection c intern selection target data ownerReply events).1.head?
        = some (XRequest.changeProperty c.window c.atoms.clipbox_dummy
            c.atoms.string 8 propModeAppend [])
    ∧ (∀ s t p r T, XRequest.convertSelection s t p r T
          ∈ (get_selection c intern selection target events replies).1 →
        (∃ pe : XPropertyEvent, XEventT.propertyNotify pe ∈ events ∧
          pe.atom = c.atoms.clipbox_dummy ∧ pe.time = T) ∧ T ≠ 0)
    ∧ (∀ s o T, XRequest.setSelectionOwner s o T
          ∈ (set_selection c intern selection target data ownerReply events).1 →
        (∃ pe : XPropertyEvent, XEventT.propertyNotify pe ∈ events ∧
          pe.atom = c.atoms.clipbox_dummy ∧ pe.time = T) ∧ T ≠ 0) := by
  obtain ⟨tail, htr, htail⟩ :=
    get_selection_trace_split c intern selection target events replies htgt
  have hget := get_selection_event_trace c (intern selection) (intern target) events
  have hset := set_selection_trace c intern selection target data ownerReply events
  refine ⟨?_, ?_, ?_, ?_⟩
  · rw [htr]
    rcases hget with ⟨hnone, h1⟩ | ⟨t0, rest, hsome, h1⟩ <;> rw [h1] <;> rfl
  · rcases hset with ⟨hnone, h1⟩ | ⟨t0, rest, tail2, hsome, h1, h2⟩ <;>
      rw [h1] <;> rfl
  · intro s t p r T hmem
    rw [htr, List.mem_append] at hmem
    rcases hmem with hmem | hmem
    · rcases hget with ⟨hnone, h1⟩ | ⟨t0, rest, hsome, h1⟩
      · rw [h1] at hmem
        simp at hmem
      · rw [h1] at hmem
        simp at hmem
        obtain ⟨hs, ht2, hp, hr, hT⟩ := hmem
        obtain ⟨pe, hpe, ha, htpe⟩ :=
          findDummyNotify_mem c.atoms events t0 rest hsome
        subst hT
        exact ⟨⟨pe, hpe, ha, htpe⟩, htpe ▸ htime pe hpe ha⟩
    · rcases htail _ hmem with h | h <;> simp at h
  · intro s o T hmem
    rcases hset with ⟨hnone, h1⟩ | ⟨t0, rest, tail2, hsome, h1, h2⟩
    · rw [h1] at hmem
      simp at hmem
    · rw [h1] at hmem
      simp at hmem
      rcases hmem with ⟨hs, ho, hT⟩ | hmem
      · obtain ⟨pe, hpe, ha, htpe⟩ :=
          findDummyNotify_mem c.atoms events t0 rest hsome
        subst hT
        exact ⟨⟨pe, hpe, ha, htpe⟩, htpe ▸ htime pe hpe ha⟩
      · exact absurd hmem (h2 s o T)

/-- Witness for C5 at a concrete input: one DUMMY PropertyNotify with
time 42 in the stream. -/
theorem timestamp_compliance_witness :
    (get_selection clipC internC atom_names.CLIPBOARD atom_names.UTF8_STRING
        [XEventT.propertyNotify ⟨5, 0, 42⟩] []).1.head?
        = some (XRequest.changeProperty clipC.window clipC.atoms.clipbox_dummy
            clipC.atoms.string 8 propModeAppend [])
    ∧ (set_selection clipC internC atom_names.CLIPBOARD atom_names.UTF8_STRING
        [1, 2] 1 [XEventT.propertyNotify ⟨5, 0, 42⟩]).1.head?
        = some (XRequest.changeProperty clipC.window clipC.atoms.clipbox_dummy
            clipC.atoms.string 8 propModeAppend [])
    ∧ (∀ s t p r T, XRequest.convertSelection s t p r T
          ∈ (get_selection clipC internC atom_names.CLIPBOARD
              atom_names.UTF8_STRING [XEventT.propertyNotify ⟨5, 0, 42⟩] []).1 →
        (∃ pe : XPropertyEvent,
          XEventT.propertyNotify pe ∈ [XEventT.propertyNotify ⟨5, 0, 42⟩] ∧
          pe.atom = clipC.atoms.clipbox_dummy ∧ pe.time = T) ∧ T ≠ 0)
    ∧ (∀ s o T, XRequest.setSelectionOwner s o T
          ∈ (set_selection clipC internC atom_names.CLIPBOARD
              atom_names.UTF8_STRING [1, 2] 1
              [XEventT.propertyNotify ⟨5, 0, 42⟩]).1 →
        (∃ pe : XPropertyEvent,
          XEventT.propertyNotify pe ∈ [XEventT.propertyNotify ⟨5, 0, 42⟩] ∧
          pe.atom = clipC.atoms.clipbox_dummy ∧ pe.time = T) ∧ T ≠ 0) := by
  exact timestamp_compliance clipC internC atom_names.CLIPBOARD
    atom_names.UTF8_STRING [1, 2] 1 [XEventT.propertyNotify ⟨5, 0, 42⟩] []
    (by decide)
    (by
      intro pe h ha
      simp at h
      subst h
      decide)
